import Mathlib

/-!
Verification of the multi-tenant project-tracking backend
(organizations / projects / tasks / comments, Django + GraphQL).

The data model and the operations are shallowly embedded from the
source files under `backend/apps/`.  Model instances are embedded as
Lean structures; the ownership chain (comment → task → project →
organization) is embedded by nesting the parent record inside the
child, matching the attribute access `task.project.organization` in
the source.  Django compares model instances by primary key, so every
equality test the source performs between model instances is embedded
as equality of `id` fields.  Fallible operations (ORM `get`,
exceptions at mutation boundaries) are embedded with `Except` /
explicit result types.
-/

namespace Backend

/-- Embeds `apps.organizations.models.Organization` (the tenant); the
auto-managed timestamps are omitted. -/
structure Organization where
  id : Nat
  name : String
  slug : String
  contact_email : String
  description : String
  is_active : Bool
  deriving DecidableEq, Repr

/-- Embeds `apps.projects.models.Project`; `organization` is the required
foreign key to the owning tenant, `due_date` an optional date (days). -/
structure Project where
  id : Nat
  organization : Organization
  name : String
  description : String
  status : String
  due_date : Option Nat
  deriving DecidableEq, Repr

/-- Embeds `apps.tasks.models.Task`; `project` is the required foreign key.
The source class also exposes a read-only Python property `organization`
returning `self.project.organization`; that property is recorded in the
attribute table `model_hasattr` below, not as a stored field. -/
structure Task where
  id : Nat
  project : Project
  title : String
  description : String
  status : String
  priority : String
  assignee_email : String
  due_date : Option Nat
  deriving DecidableEq, Repr

/-- Embeds `apps.tasks.models.TaskComment`; `task` is the required foreign
key.  The class also exposes the Python property `organization`
(`self.task.project.organization`). -/
structure TaskComment where
  id : Nat
  task : Task
  content : String
  author_email : String
  deriving DecidableEq, Repr

/-- Outcome of Django's `Model.objects.get(...)`: the unique matching row,
or the `DoesNotExist` exception, or the `MultipleObjectsReturned`
exception. -/
inductive GetResult (α : Type) where
  | found : α → GetResult α
  | doesNotExist : GetResult α
  | multipleObjectsReturned : GetResult α
  deriving DecidableEq, Repr

/-- Embeds `objects.get(pred)`: exactly one matching row is returned,
zero rows raise `DoesNotExist`, several raise `MultipleObjectsReturned`. -/
def objectsGet {α : Type} (db : List α) (pred : α → Bool) : GetResult α :=
  match db.filter pred with
  | [] => GetResult.doesNotExist
  | [x] => GetResult.found x
  | _ => GetResult.multipleObjectsReturned

/-- Python truthiness of an optional string value: `None` and the empty
string are falsy (the middleware tests `if org_slug:` etc.). -/
def truthy : Option String → Bool
  | none => false
  | some s => s != ""

/-! ## Organization.save and slug derivation -/

/-- Character class kept by `slugify`'s first substitution
`re.sub(r"[^\w\s-]", "", value.lower())`: word characters, whitespace
and hyphens survive, everything else is deleted. -/
def slugKeep (c : Char) : Bool :=
  c.isAlphanum || c == '_' || c == ' ' || c == '\t' || c == '\n' || c == '-'

/-- True for the characters collapsed by `re.sub(r"[-\s]+", "-", value)`. -/
def slugDashSpace (c : Char) : Bool :=
  c == '-' || c == ' ' || c == '\t' || c == '\n'

/-- Collapses every run of hyphens/whitespace into a single hyphen; the
boolean records whether the previous character belonged to such a run. -/
def collapseGo : Bool → List Char → List Char
  | _, [] => []
  | inRun, c :: cs =>
    if slugDashSpace c then
      if inRun then collapseGo true cs else '-' :: collapseGo true cs
    else
      c :: collapseGo false cs

/-- Collapses every run of hyphens/whitespace into a single hyphen
(`re.sub(r"[-\s]+", "-", value)`). -/
def collapseDashRuns (l : List Char) : List Char := collapseGo false l

/-- True for the characters stripped from both ends by `.strip("-_")`. -/
def slugStripChar (c : Char) : Bool := c == '-' || c == '_'

/-- Model of `django.utils.text.slugify` (the library function called by
`Organization.save`), restricted to ASCII input: lowercase, delete
characters outside word/whitespace/hyphen, collapse hyphen/whitespace
runs to a single hyphen, strip leading and trailing hyphens and
underscores. -/
def slugify (value : String) : String :=
  let chars := ((value.toList.map Char.toLower).filter slugKeep)
  let chars := collapseDashRuns chars
  let chars := chars.dropWhile slugStripChar
  let chars := (chars.reverse.dropWhile slugStripChar).reverse
  String.mk chars

/-- Embeds `Organization.save`: "Auto-generate slug from name if not
provided."  The source tests `if not self.slug:`, so both a missing slug
and an empty-string slug are replaced by `slugify(self.name)`.  Returns
the slug value actually persisted. -/
def Organization.save_slug (name : String) (slug : Option String) : String :=
  if truthy slug then slug.getD "" else slugify name

/-! ## Project derived statistics -/

/-- The related manager `project.tasks`: tasks whose foreign key points at
this project (Django compares by primary key). -/
def projectTasks (tasks : List Task) (p : Project) : List Task :=
  tasks.filter (fun t => t.project.id == p.id)

/-- Embeds the property `Project.task_count` (`self.tasks.count()`). -/
def Project.task_count (tasks : List Task) (p : Project) : Nat :=
  (projectTasks tasks p).length

/-- Embeds the property `Project.completed_tasks`
(`self.tasks.filter(status='DONE').count()`). -/
def Project.completed_tasks (tasks : List Task) (p : Project) : Nat :=
  ((projectTasks tasks p).filter (fun t => t.status == "DONE")).length

/-- Python's `round` to an integer: round half to even (banker's
rounding), on exact rationals. -/
def bankersRound (q : ℚ) : ℤ :=
  let n := ⌊q⌋
  if q - (n : ℚ) < 1/2 then n
  else if q - (n : ℚ) > 1/2 then n + 1
  else if n % 2 = 0 then n else n + 1

/-- Python's `round(x, 2)`: round to two decimal places, half to even. -/
def roundTo2 (q : ℚ) : ℚ := (bankersRound (q * 100) : ℚ) / 100

/-- Embeds the property `Project.completion_rate`: 0 when the project has
no tasks, otherwise `round((completed_tasks / task_count) * 100, 2)`. -/
def Project.completion_rate (tasks : List Task) (p : Project) : ℚ :=
  let total := Project.task_count tasks p
  if total = 0 then 0
  else roundTo2 (((Project.completed_tasks tasks p : ℚ) / (total : ℚ)) * 100)

/-- The completion-rate formula exactly as the specification words it:
0 when there are no tasks, else `round(completed/total*100, 2 decimal
places)`. -/
def completion_rate_spec (total completed : Nat) : ℚ :=
  if total = 0 then 0
  else roundTo2 (((completed : ℚ) / (total : ℚ)) * 100)

/-! ## Tenant Resolver (`OrganizationMiddleware.process_request`) -/

/-- The two header inputs read by the middleware:
`HTTP_X_ORGANIZATION_SLUG` and `HTTP_X_ORGANIZATION_ID`.  The id value
is embedded already parsed as a number. -/
structure RequestMeta where
  http_x_organization_slug : Option String
  http_x_organization_id : Option Nat
  deriving DecidableEq, Repr

/-- The two query parameters read by the middleware:
`organization_slug` and `organization_id`. -/
structure QueryParams where
  organization_slug : Option String
  organization_id : Option Nat
  deriving DecidableEq, Repr

/-- Embeds `Organization.objects.get(slug=s, is_active=True)`. -/
def getActiveBySlug (db : List Organization) (s : String) : GetResult Organization :=
  objectsGet db (fun o => o.slug == s && o.is_active)

/-- Embeds `Organization.objects.get(id=i, is_active=True)`. -/
def getActiveById (db : List Organization) (i : Nat) : GetResult Organization :=
  objectsGet db (fun o => o.id == i && o.is_active)

/-- Shared tail of the resolver: the `try`/`except Organization.DoesNotExist:
pass` block around a single `get` call.  A miss leaves the organization
slot `None`; `MultipleObjectsReturned` is not caught and would propagate
(it cannot occur on a store with unique slugs and ids). -/
def resolveLookup (r : GetResult Organization) : Except String (Option Organization) :=
  match r with
  | GetResult.found o => Except.ok (some o)
  | GetResult.doesNotExist => Except.ok none
  | GetResult.multipleObjectsReturned => Except.error "MultipleObjectsReturned"

/-- Embeds `OrganizationMiddleware.process_request`: read the slug and id
headers; only when both are absent/falsy, read the two query parameters;
then resolve by slug if one is present, else by id if one is present,
else leave the tenant slot `None`.  Returns the value stored in
`request.organization`. -/
def OrganizationMiddleware.process_request (db : List Organization)
    (meta : RequestMeta) (params : QueryParams) : Except String (Option Organization) :=
  let org_slug := meta.http_x_organization_slug
  let org_id := meta.http_x_organization_id
  let pair :=
    if !truthy org_slug && !org_id.isSome then
      (params.organization_slug, params.organization_id)
    else
      (org_slug, org_id)
  if truthy pair.1 then
    resolveLookup (getActiveBySlug db (pair.1.getD ""))
  else if pair.2.isSome then
    resolveLookup (getActiveById db (pair.2.getD 0))
  else
    Except.ok none

/-- A tenant identifier together with the lookup kind it selects. -/
inductive TenantKey where
  | bySlug : String → TenantKey
  | byId : Nat → TenantKey
  deriving DecidableEq, Repr

/-- Written from the specification sentence: the four identifier sources
in the fixed order slug header, id header, slug query parameter, id
query parameter; the first (truthy) match wins. -/
def firstTenantKey (slugH : Option String) (idH : Option Nat)
    (slugQ : Option String) (idQ : Option Nat) : Option TenantKey :=
  if truthy slugH then some (TenantKey.bySlug (slugH.getD ""))
  else if idH.isSome then some (TenantKey.byId (idH.getD 0))
  else if truthy slugQ then some (TenantKey.bySlug (slugQ.getD ""))
  else if idQ.isSome then some (TenantKey.byId (idQ.getD 0))
  else none

/-- Written from the specification sentence: resolve the first matching
identifier by its own lookup kind (slug+active or id+active), with no
fallback beyond that order. -/
def resolveTenantSpecOrder (db : List Organization) (slugH : Option String)
    (idH : Option Nat) (slugQ : Option String) (idQ : Option Nat) :
    Except String (Option Organization) :=
  match firstTenantKey slugH idH slugQ idQ with
  | none => Except.ok none
  | some (TenantKey.bySlug s) => resolveLookup (getActiveBySlug db s)
  | some (TenantKey.byId i) => resolveLookup (getActiveById db i)

/-! ## Request Gate (`RequireOrganizationMiddleware`) -/

/-- List-based character comparison for `str.startswith`. -/
def listLead : List Char → List Char → Bool
  | [], _ => true
  | _ :: _, [] => false
  | c :: cs, d :: ds => c == d && listLead cs ds

/-- Python's `path.startswith(p)`. -/
def startswith (path p : String) : Bool := listLead p.toList path.toList

/-- The configured exemption list of `RequireOrganizationMiddleware`. -/
def EXEMPT_PATHS : List String := ["/admin/", "/graphql/", "/api/organizations/"]

/-- A `JsonResponse` as built by the gate: HTTP status plus the two body
fields. -/
structure JsonResponseModel where
  status : Nat
  error : String
  message : String
  deriving DecidableEq, Repr

/-- Embeds `RequireOrganizationMiddleware.process_request`: exempt paths
and non-`/api/` paths pass through (`None`); otherwise a missing
organization produces the structured 400 response. -/
def RequireOrganizationMiddleware.process_request (path : String)
    (organization : Option Organization) : Option JsonResponseModel :=
  if EXEMPT_PATHS.any (fun exempt_path => startswith path exempt_path) then
    none
  else if !startswith path "/api/" then
    none
  else if organization.isNone then
    some { status := 400
           error := "Organization context required"
           message := "Please provide organization via X-Organization-Slug header or organization_slug parameter" }
  else
    none

/-- Django middleware semantics: when `process_request` returns a
response, the view (handler) is never invoked and that response is the
outcome; otherwise the handler runs on the resolved tenant. -/
def middlewareDispatch {α : Type} (path : String) (organization : Option Organization)
    (handler : Option Organization → α) : JsonResponseModel ⊕ α :=
  match RequireOrganizationMiddleware.process_request path organization with
  | some resp => Sum.inl resp
  | none => Sum.inr (handler organization)

/-! ## Scope Enforcer: queryset filtering (`MultiTenantQuerySet`) -/

/-- The four model classes of the application. -/
inductive EntityKind where
  | organizationK
  | projectK
  | taskK
  | taskCommentK
  deriving DecidableEq, Repr

/-- A row of any of the four tables. -/
inductive Entity where
  | orgE : Organization → Entity
  | projectE : Project → Entity
  | taskE : Task → Entity
  | commentE : TaskComment → Entity
  deriving DecidableEq, Repr

/-- Python `hasattr(model, attr)` on the model classes: database fields,
related managers, and the read-only properties defined in the class
bodies.  In particular `Task` and `TaskComment` expose `organization`
as a property (`models.py`), so `hasattr` is true for it. -/
def model_hasattr : EntityKind → String → Bool
  | EntityKind.organizationK, attr =>
    ["id", "name", "slug", "contact_email", "description", "is_active",
     "created_at", "updated_at", "projects", "project_count",
     "active_project_count"].contains attr
  | EntityKind.projectK, attr =>
    ["id", "organization", "name", "description", "status", "due_date",
     "created_at", "updated_at", "tasks", "task_count", "completed_tasks",
     "completion_rate", "is_overdue"].contains attr
  | EntityKind.taskK, attr =>
    ["id", "project", "title", "description", "status", "priority",
     "assignee_email", "due_date", "created_at", "updated_at", "comments",
     "organization", "is_overdue", "comment_count"].contains attr
  | EntityKind.taskCommentK, attr =>
    ["id", "task", "content", "author_email", "created_at", "updated_at",
     "organization"].contains attr

/-- The database columns (including foreign keys) of each model: the only
names resolvable by the ORM in a `filter(...)` keyword.  Properties such
as `Task.organization` are not among them. -/
def model_db_fields : EntityKind → List String
  | EntityKind.organizationK =>
    ["id", "name", "slug", "contact_email", "description", "is_active",
     "created_at", "updated_at"]
  | EntityKind.projectK =>
    ["id", "organization", "name", "description", "status", "due_date",
     "created_at", "updated_at"]
  | EntityKind.taskK =>
    ["id", "project", "title", "description", "status", "priority",
     "assignee_email", "due_date", "created_at", "updated_at"]
  | EntityKind.taskCommentK =>
    ["id", "task", "content", "author_email", "created_at", "updated_at"]

/-- A queryset: the model class it ranges over plus its rows. -/
structure QuerySet where
  model : EntityKind
  rows : List Entity
  deriving DecidableEq, Repr

/-- First segment of an ORM lookup path (the part before `__`). -/
def lookupRootChars : List Char → List Char
  | [] => []
  | '_' :: '_' :: _ => []
  | c :: cs => c :: lookupRootChars cs

/-- First segment of an ORM lookup path, e.g.
`project__organization ↦ project`. -/
def lookupRoot (path : String) : String := String.mk (lookupRootChars path.toList)

/-- The organization reached from a row by following one of the three
lookup paths the utility uses; `none` when the path does not apply. -/
def Entity.lookupOrganization : Entity → String → Option Organization
  | Entity.projectE p, "organization" => some p.organization
  | Entity.taskE t, "project__organization" => some t.project.organization
  | Entity.commentE c, "task__project__organization" => some c.task.project.organization
  | _, _ => none

/-- Embeds `queryset.filter(path=organization)` for an organization-valued
lookup path: if the first path segment is not a database field of the
queryset's model, the ORM raises `FieldError`; otherwise the rows whose
chained organization has the given primary key are kept. -/
def QuerySet.filter_kwarg_organization (qs : QuerySet) (path : String)
    (organization : Organization) : Except String QuerySet :=
  if (model_db_fields qs.model).contains (lookupRoot path) then
    Except.ok { qs with rows := qs.rows.filter (fun e =>
      match e.lookupOrganization path with
      | some o => o.id == organization.id
      | none => false) }
  else
    Except.error ("FieldError: Cannot resolve keyword " ++ lookupRoot path ++ " into field")

/-- Embeds `MultiTenantQuerySet.filter_by_organization`: dispatch on
`hasattr(model, organization / project / task)` in that order, filtering
by the corresponding lookup path; with none of the three attributes the
queryset is emptied (`queryset.none()`). -/
def MultiTenantQuerySet.filter_by_organization (queryset : QuerySet)
    (organization : Organization) : Except String QuerySet :=
  if model_hasattr queryset.model "organization" then
    queryset.filter_kwarg_organization "organization" organization
  else if model_hasattr queryset.model "project" then
    queryset.filter_kwarg_organization "project__organization" organization
  else if model_hasattr queryset.model "task" then
    queryset.filter_kwarg_organization "task__project__organization" organization
  else
    Except.ok { queryset with rows := [] }

/-! ## Scope Enforcer: per-entity authorization and `require_active` -/

/-- Embeds `validate_organization_access`: `PermissionDenied` when the
organization is `None` or inactive, `True` otherwise. -/
def validate_organization_access (organization : Option Organization) : Except String Bool :=
  match organization with
  | none => Except.error "PermissionDenied: Organization not found"
  | some organization =>
    if !organization.is_active then
      Except.error "PermissionDenied: Organization is not active"
    else
      Except.ok true

/-- Embeds `ProjectQuery.resolve_project`: fetch by pk (a miss returns
`None`); when a tenant is resolved and the project's organization
differs (Django compares model instances by primary key), raise
`PermissionDenied`. -/
def ProjectQuery.resolve_project (projects : List Project)
    (context_organization : Option Organization) (id : Nat) :
    Except String (Option Project) :=
  match objectsGet projects (fun p => p.id == id) with
  | GetResult.found project =>
    match context_organization with
    | some organization =>
      if project.organization.id != organization.id then
        Except.error "PermissionDenied: Access denied to this project"
      else
        Except.ok (some project)
    | none => Except.ok (some project)
  | GetResult.doesNotExist => Except.ok none
  | GetResult.multipleObjectsReturned => Except.error "MultipleObjectsReturned"

/-- Embeds `TaskQuery.resolve_task`: the ownership chain is
`task.project.organization`. -/
def TaskQuery.resolve_task (tasks : List Task)
    (context_organization : Option Organization) (id : Nat) :
    Except String (Option Task) :=
  match objectsGet tasks (fun t => t.id == id) with
  | GetResult.found task =>
    match context_organization with
    | some organization =>
      if task.project.organization.id != organization.id then
        Except.error "PermissionDenied: Access denied to this task"
      else
        Except.ok (some task)
    | none => Except.ok (some task)
  | GetResult.doesNotExist => Except.ok none
  | GetResult.multipleObjectsReturned => Except.error "MultipleObjectsReturned"

/-- Embeds `TaskQuery.resolve_task_comment`: the ownership chain is
`comment.task.project.organization`. -/
def TaskQuery.resolve_task_comment (comments : List TaskComment)
    (context_organization : Option Organization) (id : Nat) :
    Except String (Option TaskComment) :=
  match objectsGet comments (fun c => c.id == id) with
  | GetResult.found comment =>
    match context_organization with
    | some organization =>
      if comment.task.project.organization.id != organization.id then
        Except.error "PermissionDenied: Access denied to this comment"
      else
        Except.ok (some comment)
    | none => Except.ok (some comment)
  | GetResult.doesNotExist => Except.ok none
  | GetResult.multipleObjectsReturned => Except.error "MultipleObjectsReturned"

/-- Embeds `ProjectQuery.resolve_projects`: `list(Project.objects.all())`
with no use of the request's organization context. -/
def ProjectQuery.resolve_projects (projects : List Project)
    (context_organization : Option Organization) : List Project :=
  projects

/-- Embeds `TaskQuery.resolve_tasks`: `list(Task.objects.all())` with no
use of the request's organization context. -/
def TaskQuery.resolve_tasks (tasks : List Task)
    (context_organization : Option Organization) : List Task :=
  tasks

/-! ## Mutations

Each `mutate` wraps its body in `try/except`: the final
`except Exception as e` arm converts any store failure into
`success=False, errors=[str(e)]`.  The Entity Store's `create`/`save`
operations are passed in as `Except`-valued functions; a `.error`
outcome stands for an exception raised by the store. -/

/-- The uniform result shape of every mutation: the optional object,
`success`, and the `errors` string list. -/
structure MutationPayload (α : Type) where
  obj : Option α
  success : Bool
  errors : List String
  deriving DecidableEq, Repr

/-- Embeds `CreateOrganizationMutation.mutate`: no lookup, just the store
`create` wrapped by the exception boundary. -/
def CreateOrganizationMutation.mutate (create : Except String Organization) :
    MutationPayload Organization :=
  match create with
  | Except.ok organization => ⟨some organization, true, []⟩
  | Except.error e => ⟨none, false, [e]⟩

/-- The kwargs of `UpdateOrganizationMutation` (`None` = not provided). -/
structure UpdateOrganizationKwargs where
  name : Option String
  contact_email : Option String
  description : Option String
  is_active : Option Bool
  deriving DecidableEq, Repr

/-- The setattr loop of `UpdateOrganizationMutation.mutate`: only the
kwargs whose value is not `None` are written. -/
def applyOrganizationKwargs (o : Organization) (k : UpdateOrganizationKwargs) :
    Organization :=
  { o with
    name := k.name.getD o.name
    contact_email := k.contact_email.getD o.contact_email
    description := k.description.getD o.description
    is_active := k.is_active.getD o.is_active }

/-- Embeds `UpdateOrganizationMutation.mutate`: a pk miss yields the
listed error `Organization not found`; any store failure on `save` is
converted by the exception boundary. -/
def UpdateOrganizationMutation.mutate (orgs : List Organization)
    (save : Organization → Except String Organization) (id : Nat)
    (kwargs : UpdateOrganizationKwargs) : MutationPayload Organization :=
  match objectsGet orgs (fun o => o.id == id) with
  | GetResult.found organization =>
    match save (applyOrganizationKwargs organization kwargs) with
    | Except.ok o => ⟨some o, true, []⟩
    | Except.error e => ⟨none, false, [e]⟩
  | GetResult.doesNotExist => ⟨none, false, ["Organization not found"]⟩
  | GetResult.multipleObjectsReturned =>
    ⟨none, false, ["get() returned more than one Organization"]⟩

/-- Embeds `CreateProjectMutation.mutate`: fetch the organization by pk
(miss yields the listed error `Organization not found`), then create,
with the exception boundary around the store call.  Note: the resolved
request tenant is not consulted and `validate_organization_access` is
not called. -/
def CreateProjectMutation.mutate (orgs : List Organization)
    (create : Organization → Except String Project) (organization_id : Nat) :
    MutationPayload Project :=
  match objectsGet orgs (fun o => o.id == organization_id) with
  | GetResult.found organization =>
    match create organization with
    | Except.ok project => ⟨some project, true, []⟩
    | Except.error e => ⟨none, false, [e]⟩
  | GetResult.doesNotExist => ⟨none, false, ["Organization not found"]⟩
  | GetResult.multipleObjectsReturned =>
    ⟨none, false, ["get() returned more than one Organization"]⟩

/-- The kwargs of `UpdateProjectMutation` (`None` = not provided). -/
structure UpdateProjectKwargs where
  name : Option String
  description : Option String
  status : Option String
  due_date : Option Nat
  deriving DecidableEq, Repr

/-- The setattr loop of `UpdateProjectMutation.mutate`. -/
def applyProjectKwargs (p : Project) (k : UpdateProjectKwargs) : Project :=
  { p with
    name := k.name.getD p.name
    description := k.description.getD p.description
    status := k.status.getD p.status
    due_date := match k.due_date with
      | some d => some d
      | none => p.due_date }

/-- Embeds `UpdateProjectMutation.mutate`: a pk miss yields the listed
error `Project not found`. -/
def UpdateProjectMutation.mutate (projects : List Project)
    (save : Project → Except String Project) (id : Nat)
    (kwargs : UpdateProjectKwargs) : MutationPayload Project :=
  match objectsGet projects (fun p => p.id == id) with
  | GetResult.found project =>
    match save (applyProjectKwargs project kwargs) with
    | Except.ok p => ⟨some p, true, []⟩
    | Except.error e => ⟨none, false, [e]⟩
  | GetResult.doesNotExist => ⟨none, false, ["Project not found"]⟩
  | GetResult.multipleObjectsReturned =>
    ⟨none, false, ["get() returned more than one Project"]⟩

/-- Embeds `CreateTaskMutation.mutate`: fetch the project by pk (miss
yields the listed error `Project not found`), then create.  Neither the
request tenant nor `validate_organization_access` is consulted. -/
def CreateTaskMutation.mutate (projects : List Project)
    (create : Project → Except String Task) (project_id : Nat) :
    MutationPayload Task :=
  match objectsGet projects (fun p => p.id == project_id) with
  | GetResult.found project =>
    match create project with
    | Except.ok task => ⟨some task, true, []⟩
    | Except.error e => ⟨none, false, [e]⟩
  | GetResult.doesNotExist => ⟨none, false, ["Project not found"]⟩
  | GetResult.multipleObjectsReturned =>
    ⟨none, false, ["get() returned more than one Project"]⟩

/-- The kwargs of `UpdateTaskMutation` (`None` = not provided). -/
structure UpdateTaskKwargs where
  title : Option String
  description : Option String
  status : Option String
  priority : Option String
  assignee_email : Option String
  due_date : Option Nat
  deriving DecidableEq, Repr

/-- The setattr loop of `UpdateTaskMutation.mutate`. -/
def applyTaskKwargs (t : Task) (k : UpdateTaskKwargs) : Task :=
  { t with
    title := k.title.getD t.title
    description := k.description.getD t.description
    status := k.status.getD t.status
    priority := k.priority.getD t.priority
    assignee_email := k.assignee_email.getD t.assignee_email
    due_date := match k.due_date with
      | some d => some d
      | none => t.due_date }

/-- Embeds `UpdateTaskMutation.mutate`: a pk miss yields the listed error
`Task not found`. -/
def UpdateTaskMutation.mutate (tasks : List Task)
    (save : Task → Except String Task) (id : Nat)
    (kwargs : UpdateTaskKwargs) : MutationPayload Task :=
  match objectsGet tasks (fun t => t.id == id) with
  | GetResult.found task =>
    match save (applyTaskKwargs task kwargs) with
    | Except.ok t => ⟨some t, true, []⟩
    | Except.error e => ⟨none, false, [e]⟩
  | GetResult.doesNotExist => ⟨none, false, ["Task not found"]⟩
  | GetResult.multipleObjectsReturned =>
    ⟨none, false, ["get() returned more than one Task"]⟩

/-- Embeds `AddTaskCommentMutation.mutate`: fetch the task by pk (miss
yields the listed error `Task not found`), then create the comment. -/
def AddTaskCommentMutation.mutate (tasks : List Task)
    (create : Task → Except String TaskComment) (task_id : Nat) :
    MutationPayload TaskComment :=
  match objectsGet tasks (fun t => t.id == task_id) with
  | GetResult.found task =>
    match create task with
    | Except.ok comment => ⟨some comment, true, []⟩
    | Except.error e => ⟨none, false, [e]⟩
  | GetResult.doesNotExist => ⟨none, false, ["Task not found"]⟩
  | GetResult.multipleObjectsReturned =>
    ⟨none, false, ["get() returned more than one Task"]⟩

/-! ## Sample store contents used by concrete evaluations -/

/-- An active organization. -/
def orgA : Organization :=
  ⟨1, "Org A", "org-a", "a@example.com", "", true⟩

/-- A second active organization, distinct from `orgA`. -/
def orgB : Organization :=
  ⟨2, "Org B", "org-b", "b@example.com", "", true⟩

/-- An inactive organization. -/
def orgInactive : Organization :=
  ⟨3, "Org C", "org-c", "c@example.com", "", false⟩

/-- A project owned by `orgA`. -/
def projectA : Project := ⟨10, orgA, "PA", "", "ACTIVE", none⟩

/-- A project owned by `orgB`. -/
def projectB : Project := ⟨11, orgB, "PB", "", "ACTIVE", none⟩

/-- A project owned by the inactive organization. -/
def projectInactive : Project := ⟨12, orgInactive, "PC", "", "ACTIVE", none⟩

/-- A completed task of `projectA`. -/
def taskA1 : Task := ⟨100, projectA, "T1", "", "DONE", "MEDIUM", "", none⟩

/-- A pending task of `projectA`. -/
def taskA2 : Task := ⟨101, projectA, "T2", "", "TODO", "MEDIUM", "", none⟩

/-- A pending task of `projectA`. -/
def taskA3 : Task := ⟨102, projectA, "T3", "", "TODO", "MEDIUM", "", none⟩

/-- A pending task of `projectA`. -/
def taskA4 : Task := ⟨103, projectA, "T4", "", "IN_PROGRESS", "MEDIUM", "", none⟩

/-- A task of `projectB`. -/
def taskB1 : Task := ⟨110, projectB, "T5", "", "TODO", "MEDIUM", "", none⟩

/-- A comment on `taskA1` (ownership chain rooted at `orgA`). -/
def commentA1 : TaskComment := ⟨200, taskA1, "hi", "x@example.com"⟩

/-- The exact rejection response the Request Gate builds. -/
def gateRejection : JsonResponseModel :=
  { status := 400
    error := "Organization context required"
    message := "Please provide organization via X-Organization-Slug header or organization_slug parameter" }

end Backend

namespace Backend

/-! ## Theorems -/

/-- C9: creating an Organization with name "My Org" and no slug yields
slug "my-org" (and in general an absent slug is auto-derived by
`slugify` from the name), while an explicit non-empty slug is preserved
verbatim. -/
theorem organization_slug_round_trip :
    Organization.save_slug "My Org" none = "my-org" ∧
    (∀ (name slug : String), slug ≠ "" →
      Organization.save_slug name (some slug) = slug) ∧
    (∀ (name : String), Organization.save_slug name none = slugify name) := by
  refine ⟨by decide, ?_, fun name => rfl⟩
  intro name slug h
  simp [Organization.save_slug, truthy, h]

/-- Witness for C9: a concrete explicit slug is preserved verbatim. -/
theorem organization_slug_round_trip_witness :
    "custom" ≠ "" ∧ Organization.save_slug "Acme" (some "custom") = "custom" :=
  ⟨by decide, organization_slug_round_trip.2.1 "Acme" "custom" (by decide)⟩

/-- C10: `resolve_projects` and `resolve_tasks` return every record in
the store, and their output is identical under any two resolved tenants
(including absence). -/
theorem resolve_collections_tenant_independent
    (projects : List Project) (tasks : List Task)
    (t1 t2 : Option Organization) :
    ProjectQuery.resolve_projects projects t1 = projects ∧
    TaskQuery.resolve_tasks tasks t1 = tasks ∧
    ProjectQuery.resolve_projects projects t1 = ProjectQuery.resolve_projects projects t2 ∧
    TaskQuery.resolve_tasks tasks t1 = TaskQuery.resolve_tasks tasks t2 :=
  ⟨rfl, rfl, rfl, rfl⟩

/-- C7: at every mutation boundary a store exception becomes
`success=false` with the exception text in `errors` (first seven
conjuncts), and a pk lookup miss yields the listed string errors
`Organization not found` / `Project not found` / `Task not found`
(remaining conjuncts). -/
theorem mutation_boundary_errors (e : String)
    (o : Organization) (p : Project) (t : Task)
    (oid pid tid : Nat)
    (ok : UpdateOrganizationKwargs) (pk : UpdateProjectKwargs) (tk : UpdateTaskKwargs)
    (saveO : Organization → Except String Organization)
    (saveP : Project → Except String Project)
    (saveT : Task → Except String Task)
    (createP : Organization → Except String Project)
    (createT : Project → Except String Task)
    (createC : Task → Except String TaskComment) :
    CreateOrganizationMutation.mutate (Except.error e) = ⟨none, false, [e]⟩ ∧
    UpdateOrganizationMutation.mutate [o] (fun _ => Except.error e) o.id ok = ⟨none, false, [e]⟩ ∧
    CreateProjectMutation.mutate [o] (fun _ => Except.error e) o.id = ⟨none, false, [e]⟩ ∧
    UpdateProjectMutation.mutate [p] (fun _ => Except.error e) p.id pk = ⟨none, false, [e]⟩ ∧
    CreateTaskMutation.mutate [p] (fun _ => Except.error e) p.id = ⟨none, false, [e]⟩ ∧
    UpdateTaskMutation.mutate [t] (fun _ => Except.error e) t.id tk = ⟨none, false, [e]⟩ ∧
    AddTaskCommentMutation.mutate [t] (fun _ => Except.error e) t.id = ⟨none, false, [e]⟩ ∧
    UpdateOrganizationMutation.mutate [] saveO oid ok = ⟨none, false, ["Organization not found"]⟩ ∧
    CreateProjectMutation.mutate [] createP oid = ⟨none, false, ["Organization not found"]⟩ ∧
    UpdateProjectMutation.mutate [] saveP pid pk = ⟨none, false, ["Project not found"]⟩ ∧
    CreateTaskMutation.mutate [] createT pid = ⟨none, false, ["Project not found"]⟩ ∧
    UpdateTaskMutation.mutate [] saveT tid tk = ⟨none, false, ["Task not found"]⟩ ∧
    AddTaskCommentMutation.mutate [] createC tid = ⟨none, false, ["Task not found"]⟩ := by
  refine ⟨rfl, ?_, ?_, ?_, ?_, ?_, ?_, rfl, rfl, rfl, rfl, rfl, rfl⟩ <;>
    simp [UpdateOrganizationMutation.mutate, CreateProjectMutation.mutate,
      UpdateProjectMutation.mutate, CreateTaskMutation.mutate,
      UpdateTaskMutation.mutate, AddTaskCommentMutation.mutate, objectsGet]

/-- C8: `completion_rate` is 0 for a project with no tasks, otherwise
`round(completed_tasks/task_count*100, 2)` (half-to-even, as Python
rounds); a project with 4 tasks of which 1 is done has rate 25. -/
theorem completion_rate_formula :
    (∀ (tasks : List Task) (p : Project),
      Project.completion_rate tasks p =
        completion_rate_spec (Project.task_count tasks p) (Project.completed_tasks tasks p)) ∧
    (∀ (tasks : List Task) (p : Project),
      Project.task_count tasks p = 0 → Project.completion_rate tasks p = 0) ∧
    Project.completion_rate [taskA1, taskA2, taskA3, taskA4] projectA = 25 := by
  refine ⟨fun tasks p => rfl, ?_, ?_⟩
  · intro tasks p h
    simp [Project.completion_rate, h]
  · have h4 : Project.task_count [taskA1, taskA2, taskA3, taskA4] projectA = 4 := by decide
    have h1 : Project.completed_tasks [taskA1, taskA2, taskA3, taskA4] projectA = 1 := by decide
    simp only [Project.completion_rate, h4, h1]
    norm_num [roundTo2, bankersRound]

/-- Witness for C8: concrete no-task project has rate 0. -/
theorem completion_rate_formula_witness :
    Project.task_count [] projectA = 0 ∧ Project.completion_rate [] projectA = 0 :=
  ⟨by decide, completion_rate_formula.2.1 [] projectA (by decide)⟩

/-- C4 counterexample: `validate_organization_access` does deny the
inactive organization, but `CreateProjectMutation.mutate` and
`CreateTaskMutation.mutate` never invoke that check: with the inactive
organization in the store, both mutations report `success = true`
instead of failing with a PermissionDenied-class error. -/
theorem require_active_unused_counterexample :
    validate_organization_access (some orgInactive) =
      Except.error "PermissionDenied: Organization is not active" ∧
    (CreateProjectMutation.mutate [orgInactive]
        (fun organization => Except.ok ⟨12, organization, "PC", "", "ACTIVE", none⟩)
        3).success = true ∧
    (CreateTaskMutation.mutate [projectInactive]
        (fun project => Except.ok ⟨120, project, "TC", "", "TODO", "MEDIUM", "", none⟩)
        12).success = true :=
  ⟨rfl, rfl, rfl⟩

/-- C4 amended: `validate_organization_access` fails with a
PermissionDenied-class error exactly when the organization is null or
inactive, but no mutation invokes it: `CreateProjectMutation.mutate`
performs only a bare pk lookup, so under an inactive organization it
proceeds and succeeds. -/
theorem require_active_semantics (o : Organization) :
    validate_organization_access none =
      Except.error "PermissionDenied: Organization not found" ∧
    (o.is_active = false →
      validate_organization_access (some o) =
        Except.error "PermissionDenied: Organization is not active") ∧
    (o.is_active = true → validate_organization_access (some o) = Except.ok true) ∧
    (∀ (create : Organization → Except String Project) (p : Project),
      o.is_active = false → create o = Except.ok p →
      CreateProjectMutation.mutate [o] create o.id = ⟨some p, true, []⟩) := by
  refine ⟨rfl, ?_, ?_, ?_⟩
  · intro h; simp [validate_organization_access, h]
  · intro h; simp [validate_organization_access, h]
  · intro create p hInactive hCreate
    simp [CreateProjectMutation.mutate, objectsGet, hCreate]

/-- Witness for C4 amended: the inactive sample organization is denied by
the check yet `CreateProjectMutation` succeeds on it. -/
theorem require_active_semantics_witness :
    validate_organization_access (some orgInactive) =
      Except.error "PermissionDenied: Organization is not active" ∧
    CreateProjectMutation.mutate [orgInactive]
        (fun _ => Except.ok projectInactive) orgInactive.id =
      ⟨some projectInactive, true, []⟩ :=
  ⟨(require_active_semantics orgInactive).2.1 (by decide),
   (require_active_semantics orgInactive).2.2.2
     (fun _ => Except.ok projectInactive) projectInactive (by decide) rfl⟩

/-- C1: the generic tenant filter, applied to a Task (or TaskComment)
queryset, never performs the claimed `project.organization` chain
filter: because `Task` exposes `organization` as a Python property,
`hasattr(model, "organization")` is true and the code executes
`queryset.filter(organization=...)`, which the ORM rejects with a
`FieldError` since `organization` is not a database field of `Task`. -/
theorem filter_by_organization_task_fielderror
    (rows : List Entity) (organization : Organization) :
    MultiTenantQuerySet.filter_by_organization ⟨EntityKind.taskK, rows⟩ organization =
      Except.error "FieldError: Cannot resolve keyword organization into field" ∧
    MultiTenantQuerySet.filter_by_organization ⟨EntityKind.taskCommentK, rows⟩ organization =
      Except.error "FieldError: Cannot resolve keyword organization into field" ∧
    MultiTenantQuerySet.filter_by_organization ⟨EntityKind.projectK, rows⟩ organization =
      Except.ok ⟨EntityKind.projectK, rows.filter (fun e =>
        match e.lookupOrganization "organization" with
        | some o => o.id == organization.id
        | none => false)⟩ :=
  ⟨rfl, rfl, rfl⟩

/-- C2: for an entity whose ownership chain is rooted at organization A
(project directly, task via its project, comment via its task's
project) and any organization B with a different primary key, the
single-entity resolvers deny `Some(B)` with a PermissionDenied-class
error, permit `Some(A)`, and permit an absent tenant unconditionally. -/
theorem authorize_ownership_chain (p : Project) (t : Task) (c : TaskComment)
    (A B : Organization)
    (hp : p.organization = A) (ht : t.project.organization = A)
    (hc : c.task.project.organization = A)
    (hne : B.id ≠ A.id) :
    ProjectQuery.resolve_project [p] (some B) p.id =
      Except.error "PermissionDenied: Access denied to this project" ∧
    ProjectQuery.resolve_project [p] (some A) p.id = Except.ok (some p) ∧
    ProjectQuery.resolve_project [p] none p.id = Except.ok (some p) ∧
    TaskQuery.resolve_task [t] (some B) t.id =
      Except.error "PermissionDenied: Access denied to this task" ∧
    TaskQuery.resolve_task [t] (some A) t.id = Except.ok (some t) ∧
    TaskQuery.resolve_task [t] none t.id = Except.ok (some t) ∧
    TaskQuery.resolve_task_comment [c] (some B) c.id =
      Except.error "PermissionDenied: Access denied to this comment" ∧
    TaskQuery.resolve_task_comment [c] (some A) c.id = Except.ok (some c) ∧
    TaskQuery.resolve_task_comment [c] none c.id = Except.ok (some c) := by
  have hne' : A.id ≠ B.id := fun h => hne h.symm
  refine ⟨?_, ?_, ?_, ?_, ?_, ?_, ?_, ?_, ?_⟩ <;>
    simp [ProjectQuery.resolve_project, TaskQuery.resolve_task,
      TaskQuery.resolve_task_comment, objectsGet, hp, ht, hc, hne']

/-- Witness for C2: the concrete project/task/comment of `orgA` against
the distinct tenant `orgB`. -/
theorem authorize_ownership_chain_witness :
    projectA.organization = orgA ∧ orgB.id ≠ orgA.id ∧
    ProjectQuery.resolve_project [projectA] (some orgB) projectA.id =
      Except.error "PermissionDenied: Access denied to this project" ∧
    TaskQuery.resolve_task [taskA1] (some orgB) taskA1.id =
      Except.error "PermissionDenied: Access denied to this task" ∧
    TaskQuery.resolve_task_comment [commentA1] (some orgA) commentA1.id =
      Except.ok (some commentA1) := by
  have h := authorize_ownership_chain projectA taskA1 commentA1 orgA orgB
    (by decide) (by decide) (by decide) (by decide)
  exact ⟨by decide, by decide, h.1, h.2.2.2.1, h.2.2.2.2.2.2.2.1⟩

/-- Lookup by slug-and-active misses when the organization carrying that
slug is inactive (slug unique in the store). -/
theorem getActiveBySlug_inactive_miss (db : List Organization) (O : Organization)
    (hInactive : O.is_active = false)
    (hSlugUniq : ∀ o ∈ db, o.slug = O.slug → o = O) :
    getActiveBySlug db O.slug = GetResult.doesNotExist := by
  have h : db.filter (fun o => o.slug == O.slug && o.is_active) = [] := by
    rw [List.filter_eq_nil_iff]
    intro o ho hpred
    rw [Bool.and_eq_true] at hpred
    obtain ⟨hs, ha⟩ := hpred
    have : o = O := hSlugUniq o ho (by simpa using hs)
    rw [this, hInactive] at ha
    exact Bool.false_ne_true ha
  simp [getActiveBySlug, objectsGet, h]

/-- Lookup by id-and-active misses when the organization carrying that id
is inactive (id unique in the store). -/
theorem getActiveById_inactive_miss (db : List Organization) (O : Organization)
    (hInactive : O.is_active = false)
    (hIdUniq : ∀ o ∈ db, o.id = O.id → o = O) :
    getActiveById db O.id = GetResult.doesNotExist := by
  have h : db.filter (fun o => o.id == O.id && o.is_active) = [] := by
    rw [List.filter_eq_nil_iff]
    intro o ho hpred
    rw [Bool.and_eq_true] at hpred
    obtain ⟨hs, ha⟩ := hpred
    have : o = O := hIdUniq o ho (by simpa using hs)
    rw [this, hInactive] at ha
    exact Bool.false_ne_true ha
  simp [getActiveById, objectsGet, h]

/-- C3: an inactive organization never resolves — by slug or by id,
through header or query parameter, the Tenant Resolver leaves the tenant
slot `None`; and a lookup miss is swallowed silently, producing `None`
rather than an error outcome. -/
theorem inactive_org_resolves_none (db : List Organization) (O : Organization)
    (hInactive : O.is_active = false)
    (hSlugUniq : ∀ o ∈ db, o.slug = O.slug → o = O)
    (hIdUniq : ∀ o ∈ db, o.id = O.id → o = O) :
    OrganizationMiddleware.process_request db ⟨some O.slug, none⟩ ⟨none, none⟩ = Except.ok none ∧
    OrganizationMiddleware.process_request db ⟨none, some O.id⟩ ⟨none, none⟩ = Except.ok none ∧
    OrganizationMiddleware.process_request db ⟨none, none⟩ ⟨some O.slug, none⟩ = Except.ok none ∧
    OrganizationMiddleware.process_request db ⟨none, none⟩ ⟨none, some O.id⟩ = Except.ok none ∧
    (∀ (r : GetResult Organization), r = GetResult.doesNotExist →
      resolveLookup r = Except.ok none) := by
  have hSlug := getActiveBySlug_inactive_miss db O hInactive hSlugUniq
  have hId := getActiveById_inactive_miss db O hInactive hIdUniq
  refine ⟨?_, ?_, ?_, ?_, ?_⟩
  · by_cases hs : O.slug = ""
    · simp [OrganizationMiddleware.process_request, truthy, hs]
    · simp [OrganizationMiddleware.process_request, truthy, hs, hSlug, resolveLookup]
  · simp [OrganizationMiddleware.process_request, truthy, hId, resolveLookup]
  · by_cases hs : O.slug = ""
    · simp [OrganizationMiddleware.process_request, truthy, hs]
    · simp [OrganizationMiddleware.process_request, truthy, hs, hSlug, resolveLookup]
  · simp [OrganizationMiddleware.process_request, truthy, hId, resolveLookup]
  · intro r hr
    rw [hr]
    rfl

/-- Witness for C3: the concrete store `[orgA, orgInactive]` with the
inactive organization's slug and id. -/
theorem inactive_org_resolves_none_witness :
    orgInactive.is_active = false ∧
    OrganizationMiddleware.process_request [orgA, orgInactive]
      ⟨some orgInactive.slug, none⟩ ⟨none, none⟩ = Except.ok none ∧
    OrganizationMiddleware.process_request [orgA, orgInactive]
      ⟨none, some orgInactive.id⟩ ⟨none, none⟩ = Except.ok none := by
  have h := inactive_org_resolves_none [orgA, orgInactive] orgInactive
    (by decide) (by decide) (by decide)
  exact ⟨by decide, h.1, h.2.1⟩

/-- C5: on a non-exempt path under `/api/` with no resolved tenant, the
Request Gate returns the structured 400 response (machine `error`
field plus the human `message` naming the header and query-parameter
mechanisms) and the handler is never invoked; on an exempt path or a
path outside `/api/`, the gate passes the request through to the
handler untouched. -/
theorem request_gate_behavior (path : String) (organization : Option Organization) :
    ((EXEMPT_PATHS.any (fun e => startswith path e) = false) →
     (startswith path "/api/" = true) →
     organization = none →
     (RequireOrganizationMiddleware.process_request path organization = some gateRejection ∧
      ∀ (α : Type) (handler : Option Organization → α),
        middlewareDispatch path organization handler = Sum.inl gateRejection)) ∧
    ((EXEMPT_PATHS.any (fun e => startswith path e) = true ∨
      startswith path "/api/" = false) →
     (RequireOrganizationMiddleware.process_request path organization = none ∧
      ∀ (α : Type) (handler : Option Organization → α),
        middlewareDispatch path organization handler = Sum.inr (handler organization))) := by
  constructor
  · intro hExempt hApi hNone
    have hGate : RequireOrganizationMiddleware.process_request path organization =
        some gateRejection := by
      simp [RequireOrganizationMiddleware.process_request, hExempt, hApi, hNone, gateRejection]
    exact ⟨hGate, fun α handler => by simp [middlewareDispatch, hGate]⟩
  · intro hBypass
    have hGate : RequireOrganizationMiddleware.process_request path organization = none := by
      rcases hBypass with h | h <;>
        simp [RequireOrganizationMiddleware.process_request, h]
    exact ⟨hGate, fun α handler => by simp [middlewareDispatch, hGate]⟩

/-- Witness for C5: the path `/api/projects/` without tenant is rejected
with the structured 400 and the handler is skipped; `/graphql/` is
exempt and passes through. -/
theorem request_gate_behavior_witness :
    (EXEMPT_PATHS.any (fun e => startswith "/api/projects/" e) = false) ∧
    (startswith "/api/projects/" "/api/" = true) ∧
    RequireOrganizationMiddleware.process_request "/api/projects/" none = some gateRejection ∧
    middlewareDispatch "/api/projects/" none (fun o => o) = Sum.inl gateRejection ∧
    (EXEMPT_PATHS.any (fun e => startswith "/graphql/" e) = true) ∧
    RequireOrganizationMiddleware.process_request "/graphql/" none = none :=
  ⟨by decide, by decide,
   ((request_gate_behavior "/api/projects/" none).1 (by decide) (by decide) rfl).1,
   ((request_gate_behavior "/api/projects/" none).1 (by decide) (by decide) rfl).2
     (Option Organization) (fun o => o),
   by decide,
   ((request_gate_behavior "/graphql/" none).2 (Or.inl (by decide))).1⟩

/-- C6: the Tenant Resolver is extensionally the fixed-order dispatch of
the specification — slug header, id header, slug query parameter, id
query parameter, first (truthy) match wins, and the winning identifier
alone is looked up together with `is_active=True`, with no fallback
beyond that order. -/
theorem tenant_resolution_order (db : List Organization)
    (meta : RequestMeta) (params : QueryParams) :
    OrganizationMiddleware.process_request db meta params =
      resolveTenantSpecOrder db meta.http_x_organization_slug meta.http_x_organization_id
        params.organization_slug params.organization_id := by
  rcases meta with ⟨slugH, idH⟩
  rcases params with ⟨slugQ, idQ⟩
  by_cases h1 : truthy slugH = true <;> by_cases h2 : idH.isSome = true <;>
    by_cases h3 : truthy slugQ = true <;> by_cases h4 : idQ.isSome = true <;>
      simp [OrganizationMiddleware.process_request, resolveTenantSpecOrder,
        firstTenantKey, h1, h2, h3, h4]

end Backend
